import Mathlib

/-!
Verification of the homework-status polling bot (`homework.py`, `config.py`,
`exceptions.py`) by a shallow embedding in Lean 4.

JSON-decoded Python values are modelled by `PyVal`; exceptions raised by the
program are modelled by the error type `HomeworkError` and functions that can
raise return `Except`.  The network is modelled as an oracle input
(`HttpResult`) to `get_api_answer`, and one iteration of the `while True`
loop in `main` is the function `run_cycle`.
-/

/-- A decoded Python value: `None`, `bool`, `int`, `str`, `list`, `dict`
(dict keys restricted to strings, as in JSON bodies). -/
inductive PyVal where
  | none : PyVal
  | bool : Bool → PyVal
  | int : Int → PyVal
  | str : String → PyVal
  | list : List PyVal → PyVal
  | dict : List (String × PyVal) → PyVal

/-- Python `d.get(k)` lookup on the underlying association list, returning
`Option.none` when the key is absent. -/
def assocGet : List (String × PyVal) → String → Option PyVal
  | [], _ => Option.none
  | (k, v) :: rest, key => if k = key then some v else assocGet rest key

/-- Python `d.get(k)`: the bound value, or `None` when the key is absent. -/
def dictGet (kvs : List (String × PyVal)) (key : String) : PyVal :=
  (assocGet kvs key).getD PyVal.none

/-- Python `d.get(k, default)` as used in `main` on the validated response:
the bound value, or `default` when the key is absent.  (`main` only calls it
on a value `check_response` accepted, which is always a dict.) -/
def pyGetD (v : PyVal) (key : String) (default : PyVal) : PyVal :=
  match v with
  | .dict kvs => (assocGet kvs key).getD default
  | _ => default

/-- Python `x is None`. -/
def PyVal.isNone : PyVal → Bool
  | .none => true
  | _ => false

/-- Python `isinstance(x, dict)`. -/
def PyVal.isDict : PyVal → Bool
  | .dict _ => true
  | _ => false

/-- Python `isinstance(x, list)`. -/
def PyVal.isList : PyVal → Bool
  | .list _ => true
  | _ => false

/-- Python `isinstance(x, int)`; `bool` is a subclass of `int` in Python. -/
def PyVal.isInstInt : PyVal → Bool
  | .int _ => true
  | .bool _ => true
  | _ => false

/-- Python `str(x)` for the scalar values the program interpolates into
messages.  The exact rendering of lists and dicts is not modelled (no claim
interpolates one). -/
def PyVal.pyStr : PyVal → String
  | .none => "None"
  | .bool true => "True"
  | .bool false => "False"
  | .int n => toString n
  | .str s => s
  | .list _ => "<list>"
  | .dict _ => "<dict>"

/-- Exceptions raised by the program.  `typeError`, `keyError` and
`attributeError` are Python built-ins (`KeyError` in `check_response` is
constructed with a second argument, the response, kept as a payload);
the rest come from `exceptions.py` and `requests.exceptions`. -/
inductive HomeworkError where
  | typeError : String → HomeworkError
  | keyError : String → Option PyVal → HomeworkError
  | attributeError : String → HomeworkError
  | endpointNotAvailable : String → HomeworkError
  | httpError : String → HomeworkError
  | invalidJSONError : String → HomeworkError
  | unknownHomeworkStatus : String → HomeworkError

/-- `config.HOMEWORK_STATUSES`. -/
def HOMEWORK_STATUSES : List (String × String) :=
  [("approved", "Работа проверена: ревьюеру всё понравилось. Ура!"),
   ("reviewing", "Работа взята на проверку ревьюером."),
   ("rejected", "Работа проверена: у ревьюера есть замечания.")]

/-- Association lookup in a string-keyed catalog. -/
def lookupStr : List (String × String) → String → Option String
  | [], _ => Option.none
  | (k, v) :: rest, key => if k = key then some v else lookupStr rest key

/-- `HOMEWORK_STATUSES.get(status)`: string keys match the catalog; other
hashable values match nothing; unhashable values (lists, dicts) raise
`TypeError` as in Python. -/
def statusGet : PyVal → Except HomeworkError (Option String)
  | .list _ => .error (.typeError "unhashable type: \x27list\x27")
  | .dict _ => .error (.typeError "unhashable type: \x27dict\x27")
  | .str s => .ok (lookupStr HOMEWORK_STATUSES s)
  | _ => .ok Option.none

/-- `check_response(response)`: validates the API answer and returns the
homework list. -/
def check_response (response : PyVal) : Except HomeworkError (List PyVal) :=
  match response with
  | .dict kvs =>
    let homeworks := dictGet kvs "homeworks"
    if homeworks.isNone then
      .error (.keyError
        "Ответ API не содержит сведений о домашних работах. Содержимое ответа API: "
        (some (.dict kvs)))
    else
      let current_date := dictGet kvs "current_date"
      if current_date.isNone then
        .error (.keyError "Ответ API не содержит сведений о времени запроса" Option.none)
      else
        match homeworks with
        | .list hs =>
          if current_date.isInstInt then .ok hs
          else .error (.typeError "Содержимое ответа по ключу \x27current_date\x27 не является int")
        | _ => .error (.typeError "Содержимое ответа по ключу \x27homeworks\x27 не является списком")
  | _ => .error (.typeError "Ответ API не является словарем")

/-- `parse_status(homework)`: extracts name and status and renders the
fixed-template message.  Calling `.get` on a non-dict raises
`AttributeError` in Python. -/
def parse_status (homework : PyVal) : Except HomeworkError String :=
  match homework with
  | .dict kvs =>
    let homework_name := dictGet kvs "homework_name"
    if homework_name.isNone then
      .error (.keyError "Отсутствует имя домашней работы в ответе API" Option.none)
    else
      let homework_status := dictGet kvs "status"
      if homework_status.isNone then
        .error (.keyError "Отсутствует статус домашней работы в ответе API" Option.none)
      else
        match statusGet homework_status with
        | .error e => .error e
        | .ok Option.none =>
          .error (.unknownHomeworkStatus
            ("Неизвестный статус домашней работы: " ++ homework_status.pyStr))
        | .ok (some verdict) =>
          .ok ("Изменился статус проверки работы \"" ++ homework_name.pyStr ++ "\". " ++ verdict)
  | _ => .error (.attributeError "object has no attribute \x27get\x27")

/-- One hex digit, uppercase, as produced by `urllib.parse.quote`. -/
def hexDigit (n : Nat) : Char :=
  if n < 10 then Char.ofNat (48 + n) else Char.ofNat (55 + n)

/-- Bytes `urllib.parse.quote` leaves unescaped: ALPHA, DIGIT, `_.-~` and the
default safe character `/`. -/
def isSafeByte (b : Nat) : Bool :=
  (65 ≤ b ∧ b ≤ 90) ∨ (97 ≤ b ∧ b ≤ 122) ∨ (48 ≤ b ∧ b ≤ 57) ∨
    b = 95 ∨ b = 46 ∨ b = 45 ∨ b = 126 ∨ b = 47

/-- Percent-encoding of one UTF-8 byte. -/
def quoteByte (b : Nat) : String :=
  if isSafeByte b then String.singleton (Char.ofNat b)
  else "%" ++ String.singleton (hexDigit (b / 16)) ++ String.singleton (hexDigit (b % 16))

/-- UTF-8 encoding of one character, as a list of byte values. -/
def utf8Bytes (c : Char) : List Nat :=
  let n := c.toNat
  if n < 128 then [n]
  else if n < 2048 then [192 + n / 64, 128 + n % 64]
  else if n < 65536 then [224 + n / 4096, 128 + (n / 64) % 64, 128 + n % 64]
  else [240 + n / 262144, 128 + (n / 4096) % 64, 128 + (n / 64) % 64, 128 + n % 64]

/-- `urllib.parse.quote` over the UTF-8 bytes of the string. -/
def quote (s : String) : String :=
  String.join (s.data.map (fun c => String.join ((utf8Bytes c).map quoteByte)))

/-- `config.HOST`. -/
def HOST : String := "https://practicum.yandex.ru/api/"

/-- `config.HTTP_STATUSES_URL`. -/
def HTTP_STATUSES_URL : String :=
  "https://ru.wikipedia.org/wiki/" ++ quote "Список_кодов_состояния_HTTP" ++ "#"

/-- `config.RETRY_TIME`. -/
def RETRY_TIME : Nat := 600

/-- Outcome of decoding the HTTP response body (`response.json()`). -/
inductive BodyResult where
  | json : PyVal → BodyResult
  | undecodable : String → BodyResult

/-- The network oracle for one `requests.get` call: either the request itself
raises `requests.exceptions.RequestException`, or a response arrives with a
status code and a body. -/
inductive HttpResult where
  | transportError : String → HttpResult
  | response : Nat → BodyResult → HttpResult

/-- The `http_error_msg` string built by `get_api_answer` from the response
status (empty when the status is outside both error ranges). -/
def http_error_msg_for (response_status : Nat) : String :=
  if 400 ≤ response_status ∧ response_status < 500 then
    "Ошибка клиента. Код: " ++ toString response_status ++
      ". Подробнее: " ++ HTTP_STATUSES_URL ++ toString response_status
  else if 500 ≤ response_status ∧ response_status < 600 then
    "Ошибка сервера. Код: " ++ toString response_status ++
      ". Подробнее: " ++ HTTP_STATUSES_URL ++ toString response_status
  else ""

/-- `get_api_answer(current_timestamp)`: performs the GET (modelled by the
`net` oracle; the `from_date` parameter only shapes the request, not the
oracle's answer), classifies the outcome, and decodes the body.  Python
raises the `HTTPError` when `http_error_msg` is non-empty, before attempting
`response.json()`. -/
def get_api_answer (net : HttpResult) : Except HomeworkError PyVal :=
  match net with
  | .transportError error =>
    .error (.endpointNotAvailable ("Ошибка при осуществлении запроса к эндпоинту: " ++ error))
  | .response response_status body =>
    let http_error_msg := http_error_msg_for response_status
    if http_error_msg = "" then
      match body with
      | .undecodable error =>
        .error (.invalidJSONError ("Ошибка трансформации ответа в формат json: " ++ error))
      | .json v => .ok v
    else .error (.httpError http_error_msg)

/-- Outcome of the underlying `bot.send_message` call. -/
inductive SendOutcome where
  | success : SendOutcome
  | failure : String → SendOutcome

/-- The raw `bot.send_message` collaborator: may raise. -/
def bot_send : SendOutcome → Except String Unit
  | .success => .ok ()
  | .failure e => .error e

/-- `send_message(bot, message)`: wraps the raw send in `try/except`, logging
either outcome; the result type records that no exception escapes.  Returns
the log lines it emits. -/
def send_message (outcome : SendOutcome) (chat_id message : String) :
    Except String (List String) :=
  match bot_send outcome with
  | .ok _ => .ok ["Сообщение успешно отправлено в чат " ++ chat_id]
  | .error error => .ok ["Ошибка при отправка сообщения " ++ message ++ ": " ++ error]

/-- The three environment credentials read by `env_vars`; `os.getenv` yields
`None` when the variable is absent. -/
structure Env where
  PRACTICUM_TOKEN : Option String
  TELEGRAM_TOKEN : Option String
  TELEGRAM_CHAT_ID : Option String

/-- Python truthiness of an optional string: `None` and `''` are falsy. -/
def truthy : Option String → Bool
  | Option.none => false
  | some s => decide (s ≠ "")

/-- `check_tokens()`: iterates the three credentials in insertion order and
returns `False` at the first falsy one. -/
def check_tokens (env : Env) : Bool :=
  if truthy env.PRACTICUM_TOKEN = false then false
  else if truthy env.TELEGRAM_TOKEN = false then false
  else if truthy env.TELEGRAM_CHAT_ID = false then false
  else true

/-- A raised exception object: Python compares exception instances by object
identity (`Exception` defines no `__eq__`), so the model keeps an allocation
identifier next to the message text. -/
structure ErrObj where
  objId : Nat
  text : String

/-- The `PREVIOUS_ERROR` variable of `main`: initially the string `''`, later
the last exception object assigned to it. -/
inductive PrevErr where
  | initial : PrevErr
  | err : ErrObj → PrevErr

/-- Python `error != PREVIOUS_ERROR`: an exception never equals the initial
string, and two exception objects are equal only when they are the same
object (same allocation identifier). -/
def neqPrev (error : ErrObj) (prev : PrevErr) : Bool :=
  match prev with
  | .initial => true
  | .err prevObj => decide (error.objId ≠ prevObj.objId)

/-- The loop-carried state of `main`: the cursor `current_timestamp` (a
Python value after the first reassignment), `PREVIOUS_ERROR`, and the next
fresh allocation identifier for raised exception objects. -/
structure LoopState where
  current_timestamp : PyVal
  previous_error : PrevErr
  nextObjId : Nat

/-- Python `str(error)` as interpolated into the loop's failure message.
(The exact rendering of a multi-argument `KeyError` is not modelled; no
claim depends on it.) -/
def errStr : HomeworkError → String
  | .typeError m => m
  | .keyError m _ => m
  | .attributeError m => m
  | .endpointNotAvailable m => m
  | .httpError m => m
  | .invalidJSONError m => m
  | .unknownHomeworkStatus m => m

/-- The `for homework in homeworks_list` body of `main`: formats each item
and hands the message to `send_message` (which never raises).  Returns the
messages attempted before a `parse_status` failure aborts the iteration,
together with that failure if any. -/
def notify_homeworks : List PyVal → List String × Option HomeworkError
  | [] => ([], Option.none)
  | homework :: rest =>
    match parse_status homework with
    | .error e => ([], some e)
    | .ok status_msg =>
      let (sent, err) := notify_homeworks rest
      (status_msg :: sent, err)

/-- The `try` block of one loop iteration in `main`: fetch, validate, format
and notify, then read the new cursor `response.get('current_date',
int(time.time()))`.  Returns the notification messages attempted and either
the new cursor value or the exception that escaped the block. -/
def try_body (net : HttpResult) (now : Int) :
    List String × Except HomeworkError PyVal :=
  match get_api_answer net with
  | .error e => ([], .error e)
  | .ok response =>
    match check_response response with
    | .error e => ([], .error e)
    | .ok homeworks_list =>
      let (sent, fmtErr) :=
        if homeworks_list.length > 0 then notify_homeworks homeworks_list
        else ([], Option.none)
      match fmtErr with
      | some e => (sent, .error e)
      | Option.none => (sent, .ok (pyGetD response "current_date" (.int now)))

/-- One iteration of the `while True` loop of `main` (the trailing
`time.sleep(RETRY_TIME)` has no modelled effect).  On an exception the
handler logs, and sends the failure message only when `error !=
PREVIOUS_ERROR`; raising allocates a fresh exception object.  Returns the
new state and every message handed to `send_message` this cycle. -/
def run_cycle (net : HttpResult) (now : Int) (s : LoopState) :
    LoopState × List String :=
  match try_body net now with
  | (sent, .ok newTs) => ({ s with current_timestamp := newTs }, sent)
  | (sent, .error e) =>
    let errObj : ErrObj := ⟨s.nextObjId, errStr e⟩
    let message := "Ошибка в работе: " ++ errObj.text
    if neqPrev errObj s.previous_error then
      (⟨s.current_timestamp, .err errObj, s.nextObjId + 1⟩, sent ++ [message])
    else
      (⟨s.current_timestamp, s.previous_error, s.nextObjId + 1⟩, sent)

/-- How `main` starts: either `sys.exit()` before the bot is created and
before any network call, or the loop is entered with the initial state. -/
inductive StartupResult where
  | exited : StartupResult
  | loopEntered : LoopState → StartupResult

/-- The startup prologue of `main`: `PREVIOUS_ERROR = ''`, the token check
(exit on failure), then `current_timestamp = int(time.time())` and the
loop. -/
def main_startup (env : Env) (now : Int) : StartupResult :=
  if check_tokens env then .loopEntered ⟨PyVal.int now, PrevErr.initial, 0⟩
  else .exited

set_option maxRecDepth 4000 in
/-- Sanity check of the `quote` model: the computed reference-link prefix is
the percent-encoding `urllib.parse.quote` produces. -/
lemma HTTP_STATUSES_URL_value : HTTP_STATUSES_URL =
    "https://ru.wikipedia.org/wiki/%D0%A1%D0%BF%D0%B8%D1%81%D0%BE%D0%BA_%D0%BA%D0%BE%D0%B4%D0%BE%D0%B2_%D1%81%D0%BE%D1%81%D1%82%D0%BE%D1%8F%D0%BD%D0%B8%D1%8F_HTTP#" := by
  decide

lemma append_left_eq_empty (x y : String) (h : x ++ y = "") : x = "" := by
  have hd := congrArg String.data h
  rw [String.data_append] at hd
  have hx : x.data = [] := (List.append_eq_nil.mp hd).1
  cases x
  simpa [String.ext_iff] using hx

lemma client_msg_ne_empty (st : Nat) :
    "Ошибка клиента. Код: " ++ toString st ++ ". Подробнее: " ++
      HTTP_STATUSES_URL ++ toString st ≠ "" := by
  intro h
  have h4 := append_left_eq_empty _ _ (append_left_eq_empty _ _
    (append_left_eq_empty _ _ (append_left_eq_empty _ _ h)))
  exact absurd h4 (by decide)

lemma server_msg_ne_empty (st : Nat) :
    "Ошибка сервера. Код: " ++ toString st ++ ". Подробнее: " ++
      HTTP_STATUSES_URL ++ toString st ≠ "" := by
  intro h
  have h4 := append_left_eq_empty _ _ (append_left_eq_empty _ _
    (append_left_eq_empty _ _ (append_left_eq_empty _ _ h)))
  exact absurd h4 (by decide)

lemma http_error_msg_for_out_of_range (st : Nat) (h : st < 400 ∨ 600 ≤ st) :
    http_error_msg_for st = "" := by
  have hA : ¬(400 ≤ st ∧ st < 500) := by rcases h with h | h <;> omega
  have hB : ¬(500 ≤ st ∧ st < 600) := by rcases h with h | h <;> omega
  simp [http_error_msg_for, hA, hB]

/-- C3: `check_response` performs its checks in exactly this order and
signals the first failing one: mapping check (`TypeError`); `homeworks`
key present (`KeyError`, so `check_response({})` signals the missing
homeworks list); `current_date` key present (`KeyError`); `homeworks`
value is a list (`TypeError`); `current_date` value is an integer
(`TypeError`); on success the homework list is returned. -/
theorem check_response_checks_in_order :
    (∀ r : PyVal, PyVal.isDict r = false →
      check_response r = .error (.typeError "Ответ API не является словарем")) ∧
    (∀ kvs, (dictGet kvs "homeworks").isNone = true →
      check_response (.dict kvs) = .error (.keyError
        "Ответ API не содержит сведений о домашних работах. Содержимое ответа API: "
        (some (.dict kvs)))) ∧
    (∀ kvs, (dictGet kvs "homeworks").isNone = false →
      (dictGet kvs "current_date").isNone = true →
      check_response (.dict kvs) = .error (.keyError
        "Ответ API не содержит сведений о времени запроса" Option.none)) ∧
    (∀ kvs, (dictGet kvs "homeworks").isNone = false →
      (dictGet kvs "current_date").isNone = false →
      (dictGet kvs "homeworks").isList = false →
      check_response (.dict kvs) = .error
        (.typeError "Содержимое ответа по ключу \x27homeworks\x27 не является списком")) ∧
    (∀ kvs hws, dictGet kvs "homeworks" = PyVal.list hws →
      (dictGet kvs "current_date").isNone = false →
      (dictGet kvs "current_date").isInstInt = false →
      check_response (.dict kvs) = .error
        (.typeError "Содержимое ответа по ключу \x27current_date\x27 не является int")) ∧
    (∀ kvs hws, dictGet kvs "homeworks" = PyVal.list hws →
      (dictGet kvs "current_date").isNone = false →
      (dictGet kvs "current_date").isInstInt = true →
      check_response (.dict kvs) = Except.ok hws) ∧
    check_response (.dict []) = .error (.keyError
      "Ответ API не содержит сведений о домашних работах. Содержимое ответа API: "
      (some (.dict []))) := by
  refine ⟨?_, ?_, ?_, ?_, ?_, ?_, rfl⟩
  · intro r h
    cases r <;> simp_all [check_response, PyVal.isDict]
  · intro kvs h
    simp [check_response, h]
  · intro kvs h1 h2
    simp [check_response, h1, h2]
  · intro kvs h1 h2 h3
    cases hh : dictGet kvs "homeworks" <;>
      simp_all [check_response, PyVal.isList, PyVal.isNone]
  · intro kvs hws hh h2 h3
    cases hc : dictGet kvs "current_date" <;>
      simp_all [check_response, PyVal.isNone, PyVal.isInstInt]
  · intro kvs hws hh h2 h3
    cases hc : dictGet kvs "current_date" <;>
      simp_all [check_response, PyVal.isNone, PyVal.isInstInt]

/-- Witness for C3: each branch of the order exercised at a concrete
input. -/
theorem check_response_checks_in_order_witness :
    check_response (PyVal.int 1) = .error (.typeError "Ответ API не является словарем") ∧
    check_response (.dict [("current_date", PyVal.int 5)]) = .error (.keyError
      "Ответ API не содержит сведений о домашних работах. Содержимое ответа API: "
      (some (.dict [("current_date", PyVal.int 5)]))) ∧
    check_response (.dict [("homeworks", PyVal.list [])]) = .error (.keyError
      "Ответ API не содержит сведений о времени запроса" Option.none) ∧
    check_response (.dict [("homeworks", PyVal.str "x"), ("current_date", PyVal.int 5)]) =
      .error (.typeError "Содержимое ответа по ключу \x27homeworks\x27 не является списком") ∧
    check_response (.dict [("homeworks", PyVal.list []), ("current_date", PyVal.str "t")]) =
      .error (.typeError "Содержимое ответа по ключу \x27current_date\x27 не является int") ∧
    check_response (.dict [("homeworks", PyVal.list [PyVal.int 7]), ("current_date", PyVal.int 5)]) =
      Except.ok [PyVal.int 7] :=
  ⟨check_response_checks_in_order.1 _ rfl,
   check_response_checks_in_order.2.1 _ rfl,
   check_response_checks_in_order.2.2.1 _ rfl rfl,
   check_response_checks_in_order.2.2.2.1 _ rfl rfl rfl,
   check_response_checks_in_order.2.2.2.2.1 _ [] rfl rfl rfl,
   check_response_checks_in_order.2.2.2.2.2.1 _ _ rfl rfl rfl⟩

/-- C4: for a record carrying a name and a status, `parse_status` returns
the fixed-template message with the catalog text when the status is one of
approved / reviewing / rejected, and signals `UnknownHomeworkStatus`
otherwise; in particular the hw1/approved example. -/
theorem parse_status_spec (name s : String) :
    ((s = "approved" ∨ s = "reviewing" ∨ s = "rejected") →
      ∃ verdict, lookupStr HOMEWORK_STATUSES s = some verdict ∧
        parse_status (PyVal.dict [("homework_name", .str name), ("status", .str s)]) =
          Except.ok ("Изменился статус проверки работы \"" ++ name ++ "\". " ++ verdict)) ∧
    (¬(s = "approved" ∨ s = "reviewing" ∨ s = "rejected") →
      parse_status (PyVal.dict [("homework_name", .str name), ("status", .str s)]) =
        Except.error (.unknownHomeworkStatus ("Неизвестный статус домашней работы: " ++ s))) ∧
    parse_status (PyVal.dict [("homework_name", PyVal.str "hw1"), ("status", PyVal.str "approved")]) =
      Except.ok "Изменился статус проверки работы \"hw1\". Работа проверена: ревьюеру всё понравилось. Ура!" := by
  refine ⟨?_, ?_, rfl⟩
  · rintro (rfl | rfl | rfl)
    · exact ⟨_, rfl, rfl⟩
    · exact ⟨_, rfl, rfl⟩
    · exact ⟨_, rfl, rfl⟩
  · intro h
    push_neg at h
    obtain ⟨h1, h2, h3⟩ := h
    simp [parse_status, dictGet, assocGet, statusGet, lookupStr, HOMEWORK_STATUSES,
      PyVal.isNone, PyVal.pyStr, Ne.symm h1, Ne.symm h2, Ne.symm h3]

/-- Witness for C4: the catalog case at hw1/approved and the unknown-status
case at a concrete unknown code. -/
theorem parse_status_spec_witness :
    (∃ verdict, lookupStr HOMEWORK_STATUSES "approved" = some verdict ∧
      parse_status (PyVal.dict [("homework_name", .str "hw1"), ("status", .str "approved")]) =
        Except.ok ("Изменился статус проверки работы \"hw1\". " ++ verdict)) ∧
    parse_status (PyVal.dict [("homework_name", .str "hw1"), ("status", .str "unknown_code")]) =
      Except.error (.unknownHomeworkStatus "Неизвестный статус домашней работы: unknown_code") :=
  ⟨(parse_status_spec "hw1" "approved").1 (Or.inl rfl),
   (parse_status_spec "hw1" "unknown_code").2.1 (by decide)⟩

/-- C6: `send_message` never propagates an exception: every delivery attempt
returns normally, and a failed attempt returns normally with the failure
logged. -/
theorem send_message_never_raises :
    ∀ (outcome : SendOutcome) (chat_id message : String),
      (∃ logs, send_message outcome chat_id message = Except.ok logs) ∧
      (∀ e, send_message (SendOutcome.failure e) chat_id message =
        Except.ok ["Ошибка при отправка сообщения " ++ message ++ ": " ++ e]) := by
  intro o c m
  refine ⟨?_, fun e => rfl⟩
  cases o
  · exact ⟨_, rfl⟩
  · exact ⟨_, rfl⟩

/-- C10: a required key bound to `None` is treated exactly like an absent
key: `check_response` signals the missing-field `KeyError` (not a
`TypeError`) for a null `homeworks` or `current_date`, and `parse_status`
does the same for a null name or status. -/
theorem null_value_treated_as_absent :
    (∀ v, check_response (.dict [("homeworks", PyVal.none), ("current_date", v)]) =
      .error (.keyError
        "Ответ API не содержит сведений о домашних работах. Содержимое ответа API: "
        (some (.dict [("homeworks", PyVal.none), ("current_date", v)])))) ∧
    (∀ hws, check_response (.dict [("homeworks", PyVal.list hws), ("current_date", PyVal.none)]) =
      .error (.keyError "Ответ API не содержит сведений о времени запроса" Option.none)) ∧
    (∀ st, parse_status (.dict [("homework_name", PyVal.none), ("status", st)]) =
      .error (.keyError "Отсутствует имя домашней работы в ответе API" Option.none)) ∧
    (∀ nm, parse_status (.dict [("homework_name", PyVal.str nm), ("status", PyVal.none)]) =
      .error (.keyError "Отсутствует статус домашней работы в ответе API" Option.none)) :=
  ⟨fun _ => rfl, fun _ => rfl, fun _ => rfl, fun _ => rfl⟩

/-- C5: `get_api_answer` classifies its outcome exhaustively: a transport
failure signals `EndpointNotAvailable`; a status in [400,500) or [500,600)
signals an `HTTPError` carrying the status code and the reference link; an
undecodable body signals `InvalidJSONError`; otherwise the decoded
structure is returned. -/
theorem get_api_answer_classification :
    (∀ e, get_api_answer (HttpResult.transportError e) =
      .error (.endpointNotAvailable
        ("Ошибка при осуществлении запроса к эндпоинту: " ++ e))) ∧
    (∀ st body, 400 ≤ st → st < 500 →
      get_api_answer (HttpResult.response st body) =
        .error (.httpError ("Ошибка клиента. Код: " ++ toString st ++
          ". Подробнее: " ++ HTTP_STATUSES_URL ++ toString st))) ∧
    (∀ st body, 500 ≤ st → st < 600 →
      get_api_answer (HttpResult.response st body) =
        .error (.httpError ("Ошибка сервера. Код: " ++ toString st ++
          ". Подробнее: " ++ HTTP_STATUSES_URL ++ toString st))) ∧
    (∀ st e, st < 400 ∨ 600 ≤ st →
      get_api_answer (HttpResult.response st (BodyResult.undecodable e)) =
        .error (.invalidJSONError ("Ошибка трансформации ответа в формат json: " ++ e))) ∧
    (∀ st v, st < 400 ∨ 600 ≤ st →
      get_api_answer (HttpResult.response st (BodyResult.json v)) = Except.ok v) := by
  refine ⟨fun e => rfl, ?_, ?_, ?_, ?_⟩
  · intro st body h1 h2
    have hm : http_error_msg_for st = "Ошибка клиента. Код: " ++ toString st ++
        ". Подробнее: " ++ HTTP_STATUSES_URL ++ toString st := by
      simp [http_error_msg_for, h1, h2]
    simp [get_api_answer, hm, client_msg_ne_empty st]
  · intro st body h1 h2
    have hA : ¬(400 ≤ st ∧ st < 500) := by omega
    have hm : http_error_msg_for st = "Ошибка сервера. Код: " ++ toString st ++
        ". Подробнее: " ++ HTTP_STATUSES_URL ++ toString st := by
      simp [http_error_msg_for, hA, h1, h2]
    simp [get_api_answer, hm, server_msg_ne_empty st]
  · intro st e h
    simp [get_api_answer, http_error_msg_for_out_of_range st h]
  · intro st v h
    simp [get_api_answer, http_error_msg_for_out_of_range st h]

/-- Witness for C5: every classification branch at a concrete input. -/
theorem get_api_answer_classification_witness :
    get_api_answer (HttpResult.transportError "timeout") =
      .error (.endpointNotAvailable
        "Ошибка при осуществлении запроса к эндпоинту: timeout") ∧
    get_api_answer (HttpResult.response 404 (BodyResult.json (PyVal.dict []))) =
      .error (.httpError ("Ошибка клиента. Код: 404. Подробнее: " ++
        HTTP_STATUSES_URL ++ "404")) ∧
    get_api_answer (HttpResult.response 503 (BodyResult.json (PyVal.dict []))) =
      .error (.httpError ("Ошибка сервера. Код: 503. Подробнее: " ++
        HTTP_STATUSES_URL ++ "503")) ∧
    get_api_answer (HttpResult.response 200 (BodyResult.undecodable "bad json")) =
      .error (.invalidJSONError "Ошибка трансформации ответа в формат json: bad json") ∧
    get_api_answer (HttpResult.response 200 (BodyResult.json (PyVal.dict []))) =
      Except.ok (PyVal.dict []) :=
  ⟨get_api_answer_classification.1 "timeout",
   get_api_answer_classification.2.1 404 _ (by decide) (by decide),
   get_api_answer_classification.2.2.1 503 _ (by decide) (by decide),
   get_api_answer_classification.2.2.2.1 200 "bad json" (Or.inl (by decide)),
   get_api_answer_classification.2.2.2.2 200 _ (Or.inl (by decide))⟩

/-- C2: the cursor is advanced only on a fully successful cycle: whenever
the `try` block of a cycle raises (fetch, validation or formatting), the
cursor after the cycle equals its value before the cycle. -/
theorem run_cycle_cursor_unchanged_on_error (net : HttpResult) (now : Int)
    (s : LoopState) (e : HomeworkError)
    (h : (try_body net now).2 = Except.error e) :
    (run_cycle net now s).1.current_timestamp = s.current_timestamp := by
  rcases htb : try_body net now with ⟨sent, r⟩
  rw [htb] at h
  cases r with
  | ok v => exact absurd h (by simp)
  | error e2 =>
    simp only [run_cycle, htb]
    split <;> rfl

/-- Witness for C2: a transport-failure cycle leaves the cursor at its
previous value. -/
theorem run_cycle_cursor_unchanged_on_error_witness :
    (try_body (HttpResult.transportError "down") 0).2 =
      Except.error (HomeworkError.endpointNotAvailable
        "Ошибка при осуществлении запроса к эндпоинту: down") ∧
    (run_cycle (HttpResult.transportError "down") 0
        ⟨PyVal.int 99, PrevErr.initial, 0⟩).1.current_timestamp = PyVal.int 99 :=
  ⟨rfl, run_cycle_cursor_unchanged_on_error _ 0 _ _ rfl⟩

lemma notify_homeworks_of_forall₂ (hws : List PyVal) (msgs : List String)
    (h : List.Forall₂ (fun hw m => parse_status hw = Except.ok m) hws msgs) :
    notify_homeworks hws = (msgs, Option.none) := by
  induction h with
  | nil => rfl
  | cons hpm _ ih => simp [notify_homeworks, hpm, ih]

/-- C7: for a validated response whose N homeworks each format
successfully, the cycle attempts exactly the N formatted notifications, in
list order (and none when N = 0). -/
theorem run_cycle_notifications_per_item (net : HttpResult) (now : Int)
    (s : LoopState) (r : PyVal) (hws : List PyVal) (msgs : List String)
    (h1 : get_api_answer net = Except.ok r)
    (h2 : check_response r = Except.ok hws)
    (h3 : List.Forall₂ (fun hw m => parse_status hw = Except.ok m) hws msgs) :
    (run_cycle net now s).2 = msgs := by
  have htb : try_body net now = (msgs, Except.ok (pyGetD r "current_date" (.int now))) := by
    simp only [try_body, h1, h2]
    cases hws with
    | nil => cases h3; simp
    | cons a l => simp [notify_homeworks_of_forall₂ _ _ h3]
  simp [run_cycle, htb]

/-- Witness for C7: one approved homework produces exactly its one message. -/
theorem run_cycle_notifications_per_item_witness :
    (run_cycle (HttpResult.response 200 (BodyResult.json (PyVal.dict
        [("homeworks", PyVal.list [PyVal.dict
          [("homework_name", PyVal.str "hw1"), ("status", PyVal.str "approved")]]),
         ("current_date", PyVal.int 2)]))) 0
      ⟨PyVal.int 0, PrevErr.initial, 0⟩).2 =
      ["Изменился статус проверки работы \"hw1\". Работа проверена: ревьюеру всё понравилось. Ура!"] :=
  run_cycle_notifications_per_item _ 0 _ _ _ _ rfl rfl
    (List.Forall₂.cons rfl List.Forall₂.nil)

/-- C8: a falsy credential makes `check_tokens` return `False` and `main`
exit before any network call or loop iteration; with all three credentials
truthy the loop is entered. -/
theorem check_tokens_gates_loop (env : Env) (now : Int) :
    ((truthy env.PRACTICUM_TOKEN = false ∨ truthy env.TELEGRAM_TOKEN = false ∨
        truthy env.TELEGRAM_CHAT_ID = false) →
      check_tokens env = false ∧ main_startup env now = StartupResult.exited) ∧
    (truthy env.PRACTICUM_TOKEN = true → truthy env.TELEGRAM_TOKEN = true →
      truthy env.TELEGRAM_CHAT_ID = true →
      check_tokens env = true ∧
        main_startup env now = StartupResult.loopEntered ⟨PyVal.int now, PrevErr.initial, 0⟩) := by
  constructor
  · intro h
    have hc : check_tokens env = false := by
      rcases h with h | h | h <;> simp [check_tokens, h]
    exact ⟨hc, by simp [main_startup, hc]⟩
  · intro h1 h2 h3
    have hc : check_tokens env = true := by simp [check_tokens, h1, h2, h3]
    exact ⟨hc, by simp [main_startup, hc]⟩

/-- Witness for C8: an empty bot token forces the early exit; full
credentials enter the loop. -/
theorem check_tokens_gates_loop_witness :
    (check_tokens ⟨some "a", some "", some "c"⟩ = false ∧
      main_startup ⟨some "a", some "", some "c"⟩ 7 = StartupResult.exited) ∧
    (check_tokens ⟨some "a", some "b", some "c"⟩ = true ∧
      main_startup ⟨some "a", some "b", some "c"⟩ 7 =
        StartupResult.loopEntered ⟨PyVal.int 7, PrevErr.initial, 0⟩) :=
  ⟨(check_tokens_gates_loop ⟨some "a", some "", some "c"⟩ 7).1
      (Or.inr (Or.inl (by decide))),
   (check_tokens_gates_loop ⟨some "a", some "b", some "c"⟩ 7).2
      (by decide) (by decide) (by decide)⟩

/-- C9: a response accepted by `check_response` necessarily binds
`current_date` to an integer, so `response.get('current_date', fallback)`
returns that integer for every fallback — the current-time fallback in the
cursor-advance step is unreachable. -/
theorem current_date_fallback_unreachable (r : PyVal) (hws : List PyVal)
    (h : check_response r = Except.ok hws) :
    ∃ v, PyVal.isInstInt v = true ∧ ∀ d, pyGetD r "current_date" d = v := by
  cases r with
  | none => simp [check_response] at h
  | bool b => simp [check_response] at h
  | int n => simp [check_response] at h
  | str s => simp [check_response] at h
  | list xs => simp [check_response] at h
  | dict kvs =>
    by_cases hb : (dictGet kvs "homeworks").isNone = true
    · exfalso; simp [check_response, hb] at h
    · have hb' : (dictGet kvs "homeworks").isNone = false := by
        simpa using hb
      rcases ha : assocGet kvs "current_date" with _ | v
      · exfalso
        have hc : (dictGet kvs "current_date").isNone = true := by
          simp [dictGet, ha, PyVal.isNone]
        simp [check_response, hb', hc] at h
      · have hdg : dictGet kvs "current_date" = v := by simp [dictGet, ha]
        by_cases hv : PyVal.isNone v = true
        · exfalso
          have hc : (dictGet kvs "current_date").isNone = true := by rw [hdg]; exact hv
          simp [check_response, hb', hc] at h
        · have hv' : (dictGet kvs "current_date").isNone = false := by
            rw [hdg]; simpa using hv
          by_cases hi : (dictGet kvs "current_date").isInstInt = true
          · refine ⟨v, by rw [← hdg]; exact hi, fun d => by simp [pyGetD, ha]⟩
          · exfalso
            have hi' : (dictGet kvs "current_date").isInstInt = false := by
              simpa using hi
            cases hh : dictGet kvs "homeworks" <;>
              simp_all [check_response, PyVal.isNone, PyVal.isInstInt]

/-- Witness for C9: a concrete accepted response whose cursor read ignores
the fallback. -/
theorem current_date_fallback_unreachable_witness :
    check_response (PyVal.dict [("homeworks", PyVal.list []), ("current_date", PyVal.int 42)]) =
      Except.ok [] ∧
    ∃ v, PyVal.isInstInt v = true ∧
      ∀ d, pyGetD (PyVal.dict [("homeworks", PyVal.list []), ("current_date", PyVal.int 42)])
        "current_date" d = v :=
  ⟨rfl, current_date_fallback_unreachable _ _ rfl⟩

/-- C1: the code evaluated at the failing input: two consecutive cycles
raising errors with identical message text each produce a chat
notification.  `error != PREVIOUS_ERROR` compares a freshly raised
exception object with the stored one by object identity, so the duplicate
notification is not suppressed, contrary to the claimed de-duplication. -/
theorem run_cycle_notifies_identical_error_twice :
    (run_cycle (HttpResult.transportError "timeout") 0
        ⟨PyVal.int 0, PrevErr.initial, 0⟩).2 =
      ["Ошибка в работе: Ошибка при осуществлении запроса к эндпоинту: timeout"] ∧
    (run_cycle (HttpResult.transportError "timeout") 0
        (run_cycle (HttpResult.transportError "timeout") 0
          ⟨PyVal.int 0, PrevErr.initial, 0⟩).1).2 =
      ["Ошибка в работе: Ошибка при осуществлении запроса к эндпоинту: timeout"] :=
  ⟨rfl, rfl⟩
